import Mathlib

/-!
Verification of the BlstLite hypervisor control plane (backend/main.go)
against its natural-language specification.

The Go source is shallowly embedded: the VM record store, the IP index,
the port counters and the metrics cache become explicit state threaded
through pure Lean functions.  External effects (child processes, files,
sockets) are threaded as explicit oracle parameters recording whether the
corresponding call in the source succeeds.  Go `string` becomes `String`,
`int`/`int64` become `Nat`/`Int`, wall-clock times and float64 rate values
become `ℚ` (seconds).
-/

namespace BlstLite

/-! ## Association-list maps (Go `map[string]T` with explicit state) -/

/-- Lookup in an association list, mirroring a Go map read `v, ok := m[k]`. -/
def lookupA {α : Type} (k : String) : List (String × α) → Option α
  | [] => none
  | (k', v) :: rest => if k' = k then some v else lookupA k rest

/-- Insert-or-update, mirroring a Go map write `m[k] = v`. -/
def insertA {α : Type} (k : String) (v : α) : List (String × α) → List (String × α)
  | [] => [(k, v)]
  | (k', v') :: rest => if k' = k then (k, v) :: rest else (k', v') :: insertA k v rest

/-- Key removal, mirroring Go `delete(m, k)`. -/
def removeA {α : Type} (k : String) : List (String × α) → List (String × α)
  | [] => []
  | (k', v) :: rest => if k' = k then removeA k rest else (k', v) :: removeA k rest

/-- Remove the first entry whose value equals `v`, then stop: the
`for ip, vpsID := range m.ipInstances { if vpsID == id { delete; break } }`
loop in `DeleteVPS`. -/
def removeFirstByValue (v : String) : List (String × String) → List (String × String)
  | [] => []
  | (k, v') :: rest => if v' = v then rest else (k, v') :: removeFirstByValue v rest

theorem lookupA_insertA_self {α : Type} (k : String) (v : α) (l : List (String × α)) :
    lookupA k (insertA k v l) = some v := by
  induction l with
  | nil => simp [insertA, lookupA]
  | cons hd tl ih =>
    obtain ⟨k', v'⟩ := hd
    by_cases h : k' = k
    · simp [insertA, lookupA, h]
    · simp [insertA, lookupA, h, ih]

/-! ## Constants from `main.go` -/

/-- Constant `VPS_LIFETIME = 15 * time.Minute`, in seconds. -/
def VPS_LIFETIME : Int := 15 * 60

/-- Constant `SSH_PORT_START = 2200`. -/
def SSH_PORT_START : Nat := 2200

/-- The VNC counter seed, literal `5900` in `NewVPSManager`. -/
def VNC_PORT_START : Nat := 5900

/-- Keys of the `SUPPORTED_IMAGES` map. -/
def SUPPORTED_IMAGES : List String :=
  ["ubuntu-22.04", "ubuntu-20.04", "ubuntu-24.04",
   "debian-11", "debian-12",
   "fedora-38", "fedora-40",
   "almalinux-8", "almalinux-9", "rocky-8", "rocky-9",
   "centos-7", "centos-9"]

def StageInitializing : String := "initializing"
def StageCreatingDisk : String := "creating_disk"
def StagePreparingCloudInit : String := "preparing_cloud_init"
def StageStartingQEMU : String := "starting_qemu"
def StageConfigVNC : String := "configuring_vnc"
def StageCompleted : String := "completed"
def StageFailed : String := "failed"

def StatusRunning : String := "running"
def StatusStopped : String := "stopped"
def StatusStarting : String := "starting"
def StatusStopping : String := "stopping"
def StatusRestarting : String := "restarting"

/-! ## Data model -/

/-- The `VPS` struct of `main.go` (times in seconds, pid as `Int`). -/
structure VPS where
  id : String
  name : String
  hostname : String
  status : String
  imageType : String
  template : String
  qemuPid : Int
  vncPort : Nat
  sshPort : Nat
  createdAt : Int
  expiresAt : Int
  imagePath : String
  password : String
  stage : String
  progress : Nat
  errorMsg : String
deriving Repr, DecidableEq

/-- Struct `DiskMetrics`: byte/op counters (`int64`) and derived rates (`float64`,
modelled as `ℚ`). -/
structure DiskMetricsQ where
  readBytes : Int
  writeBytes : Int
  readOps : Int
  writeOps : Int
  readSpeed : ℚ
  writeSpeed : ℚ
deriving Repr, DecidableEq

/-- Struct `NetworkMetrics`. -/
structure NetworkMetricsQ where
  rxBytes : Int
  txBytes : Int
  rxPackets : Int
  txPackets : Int
  rxSpeed : ℚ
  txSpeed : ℚ
deriving Repr, DecidableEq

/-- Struct `ResourceMetrics` (one sample; `Time` in seconds). -/
structure ResourceMetricsQ where
  cpuUsage : ℚ
  memUsed : Int
  memTotal : Int
  memCache : Int
  disk : DiskMetricsQ
  net : NetworkMetricsQ
  time : ℚ
deriving Repr, DecidableEq

/-- Struct `MetricsCache`.  Field `lastUpdate = none` models the zero `time.Time`
(`LastUpdate.IsZero()` true), as in a freshly created cache entry. -/
structure MetricsCache where
  lastUpdate : Option ℚ
  lastDiskStats : DiskMetricsQ
  lastNetStats : NetworkMetricsQ
  metricsHistory : List ResourceMetricsQ
deriving Repr, DecidableEq

def zeroDisk : DiskMetricsQ := ⟨0, 0, 0, 0, 0, 0⟩
def zeroNet : NetworkMetricsQ := ⟨0, 0, 0, 0, 0, 0⟩

/-- A cache entry as built by `updateMetricsCache` when the id is new:
`&MetricsCache{MetricsHistory: make([]ResourceMetrics, 0, 300)}`. -/
def emptyMetricsCache : MetricsCache := ⟨none, zeroDisk, zeroNet, []⟩

/-- The `VPSManager` state: record store, IP index, port counters and
metrics cache. -/
structure VPSManager where
  instances : List (String × VPS)
  ipInstances : List (String × String)
  nextVNCPort : Nat
  nextSSHPort : Nat
  metricsCache : List (String × MetricsCache)
deriving Repr, DecidableEq

/-- The state built by `NewVPSManager`: empty maps,
`nextVNCPort = 5900`, `nextSSHPort = SSH_PORT_START`. -/
def initManager : VPSManager :=
  { instances := []
    ipInstances := []
    nextVNCPort := VNC_PORT_START
    nextSSHPort := SSH_PORT_START
    metricsCache := [] }

/-- Function `hasVPSForIP` from `main.go` (`time.Now().After(vps.ExpiresAt)` is
`vps.expiresAt < now`). -/
def hasVPSForIP (m : VPSManager) (ip : String) (now : Int) : Bool × String :=
  match lookupA ip m.ipInstances with
  | some vpsID =>
    match lookupA vpsID m.instances with
    | some vps => if vps.expiresAt < now then (false, "") else (true, vpsID)
    | none => (false, "")
  | none => (false, "")

/-! ## Hostname validation (`isValidHostname`) -/

/-- A character class `[a-zA-Z0-9]` test. -/
def isAlnum (c : Char) : Bool :=
  ('a' ≤ c && c ≤ 'z') || ('A' ≤ c && c ≤ 'Z') || ('0' ≤ c && c ≤ '9')

/-- A character class `[a-zA-Z0-9-]` test. -/
def isLabelChar (c : Char) : Bool := isAlnum c || c = '-'

/-- Go `strings.Split(hostname, ".")`: on the empty string it yields one
empty part. -/
def splitLabels : List Char → List (List Char)
  | [] => [[]]
  | c :: rest =>
    if c = '.' then [] :: splitLabels rest
    else
      match splitLabels rest with
      | [] => [[c]]
      | l :: ls => (c :: l) :: ls

/-- The anchored regex `^[a-zA-Z0-9]([a-zA-Z0-9-]*[a-zA-Z0-9])?$` applied
to one label. -/
def labelMatch : List Char → Bool
  | [] => false
  | c :: cs =>
    match cs with
    | [] => isAlnum c
    | _ :: _ => isAlnum c && cs.dropLast.all isLabelChar && isAlnum (cs.getLastD c)

/-- Function `isValidHostname` from `main.go`: total length ≤ 253, every
dot-separated part of length ≤ 63 and matching the label regex. -/
def isValidHostname (hostname : String) : Bool :=
  if 253 < hostname.data.length then false
  else (splitLabels hostname.data).all fun part =>
    decide (part.length ≤ 63) && labelMatch part

/-- The validity condition as worded by the spec: total length ≤ 253,
labels ≤ 63, each label matching `[A-Za-z0-9]([A-Za-z0-9-]*[A-Za-z0-9])?`. -/
def hostnameSpecValid (hostname : String) : Bool :=
  decide (hostname.data.length ≤ 253) &&
    (splitLabels hostname.data).all fun part =>
      decide (part.length ≤ 63) && labelMatch part

/-! ## Create (`CreateVPS`, `handleCreateVPS`) -/

/-- The record built at the top of `CreateVPS`: status `creating`,
ports taken from the counters, `ExpiresAt = CreatedAt + VPS_LIFETIME`,
stage `initializing`, progress `0`.  `newId` stands for the generated
UUID, `now` for `time.Now()`. -/
def mkVPS (newId name hostname imageType template : String)
    (vnc ssh : Nat) (now : Int) : VPS :=
  { id := newId
    name := name
    hostname := hostname
    status := "creating"
    imageType := imageType
    template := template
    qemuPid := 0
    vncPort := vnc
    sshPort := ssh
    createdAt := now
    expiresAt := now + VPS_LIFETIME
    imagePath := ""
    password := ""
    stage := StageInitializing
    progress := 0
    errorMsg := "" }

/-- The synchronous part of `CreateVPS`: allocate both ports, bump both
counters, store the record, return it.  The Go function never returns an
error and performs no ownership check before allocating. -/
def CreateVPS (m : VPSManager) (newId name hostname imageType template : String)
    (now : Int) : VPS × VPSManager :=
  let vps := mkVPS newId name hostname imageType template m.nextVNCPort m.nextSSHPort now
  (vps,
    { m with
      nextVNCPort := m.nextVNCPort + 1
      nextSSHPort := m.nextSSHPort + 1
      instances := (vps.id, vps) :: m.instances })

/-- The JSON body of `POST /api/vps/create`. -/
structure CreateRequest where
  name : String
  hostname : String
  imageType : String
  template : String
deriving Repr, DecidableEq

/-- The defaulting block of `handleCreateVPS`. -/
def applyCreateDefaults (req : CreateRequest) : CreateRequest :=
  { req with
    template := if req.template = "" then "blank" else req.template
    imageType := if req.imageType = "" then "ubuntu-22.04" else req.imageType
    hostname := if req.hostname = "" then req.name ++ ".vps.local" else req.hostname }

/-- Handler `handleCreateVPS` after a successful JSON decode: apply defaults, call
`CreateVPS`, encode the record with status 200.  The handler consults
neither `hasVPSForIP` nor `ipInstances`. -/
def handleCreateVPS (m : VPSManager) (req : CreateRequest) (newId : String)
    (now : Int) : Nat × VPSManager :=
  let r := applyCreateDefaults req
  let (_, m') := CreateVPS m newId r.name r.hostname r.imageType r.template now
  (200, m')

/-! ## The asynchronous creation pipeline (`createVPSWithProgress`) -/

/-- Helper for `getOSFamily`, which matches the leading characters of the image id. -/
def leadsWith : List Char → List Char → Bool
  | [], _ => true
  | _ :: _, [] => false
  | p :: ps, c :: cs => p = c && leadsWith ps cs

def getOSFamily (imageType : String) : String :=
  if leadsWith "ubuntu".data imageType.data then "ubuntu"
  else if leadsWith "debian".data imageType.data then "debian"
  else if leadsWith "fedora".data imageType.data then "fedora"
  else if leadsWith "rocky".data imageType.data then "rocky"
  else if leadsWith "almalinux".data imageType.data then "almalinux"
  else if leadsWith "centos".data imageType.data then "centos"
  else ""

/-- The failure behaviour of `createCloudInitISO`: an unknown template id
silently falls back to the `blank` template; the build fails only when the
OS family cannot be derived or when the external ISO tool fails. -/
def createCloudInitISOCheck (imageType : String) (isoToolOk : Bool) : Option String :=
  if getOSFamily imageType = "" then some ("unsupported OS type: " ++ imageType)
  else if isoToolOk = false then some "failed to create ISO"
  else none

/-- Success/failure oracle for the external steps of the pipeline (file
system, child processes).  Each flag records whether the corresponding
call in the source succeeds. -/
structure PipelineEnv where
  baseImageReady : Bool
  passwordOk : Bool
  mkdirOk : Bool
  diskOk : Bool
  isoToolOk : Bool
  qemuSpawnOk : Bool
  pidOk : Bool
  verifyOk : Bool
  websockifyOk : Bool
  pid : Int
deriving Repr, DecidableEq

/-- Function `createVPSWithProgress`: the ordered list of `updateProgress` calls
performed, and `some msg` when the pipeline returns an error.  A
websockify failure is only logged and does not fail the pipeline. -/
def createVPSWithProgress (vps : VPS) (env : PipelineEnv) :
    List (String × Nat) × Option String :=
  if SUPPORTED_IMAGES.contains vps.imageType = false then
    ([(StageInitializing, 10)], some ("unsupported image type: " ++ vps.imageType))
  else if isValidHostname vps.hostname = false then
    ([(StageInitializing, 10)], some ("invalid hostname format: " ++ vps.hostname))
  else if env.baseImageReady = false then
    ([(StageInitializing, 10), (StageInitializing, 20)],
      some "failed to prepare base image")
  else if env.passwordOk = false then
    ([(StageInitializing, 10), (StageInitializing, 20)],
      some "failed to generate password")
  else if env.mkdirOk = false then
    ([(StageInitializing, 10), (StageInitializing, 20)],
      some "failed to create instance directory")
  else if env.diskOk = false then
    ([(StageInitializing, 10), (StageInitializing, 20), (StageCreatingDisk, 40)],
      some "failed to create disk")
  else
    match createCloudInitISOCheck vps.imageType env.isoToolOk with
    | some msg =>
      ([(StageInitializing, 10), (StageInitializing, 20), (StageCreatingDisk, 40),
        (StagePreparingCloudInit, 60)],
        some ("failed to create cloud-init ISO: " ++ msg))
    | none =>
      if env.qemuSpawnOk = false then
        ([(StageInitializing, 10), (StageInitializing, 20), (StageCreatingDisk, 40),
          (StagePreparingCloudInit, 60), (StageStartingQEMU, 80)],
          some "failed to start QEMU")
      else if env.pidOk = false then
        ([(StageInitializing, 10), (StageInitializing, 20), (StageCreatingDisk, 40),
          (StagePreparingCloudInit, 60), (StageStartingQEMU, 80)],
          some "timeout waiting for QEMU to start")
      else if env.verifyOk = false then
        ([(StageInitializing, 10), (StageInitializing, 20), (StageCreatingDisk, 40),
          (StagePreparingCloudInit, 60), (StageStartingQEMU, 80)],
          some "QEMU process verification failed after 3 retries")
      else
        ([(StageInitializing, 10), (StageInitializing, 20), (StageCreatingDisk, 40),
          (StagePreparingCloudInit, 60), (StageStartingQEMU, 80), (StageConfigVNC, 90),
          (StageCompleted, 100)], none)

/-- Replay a list of `updateProgress` calls onto the record. -/
def applyUpdates (vps : VPS) (tr : List (String × Nat)) : VPS :=
  tr.foldl (fun v u => { v with stage := u.1, progress := u.2 }) vps

/-- The completion of the creation goroutine: replay the progress updates
on the stored record, then either publish the failure
(status/stage `failed`, error message) as in the `CreateVPS` error
handler, or publish success (`status = running`, pid recorded). -/
def finishCreate (m : VPSManager) (id : String) (env : PipelineEnv) : VPSManager :=
  match lookupA id m.instances with
  | none => m
  | some vps =>
    let out := createVPSWithProgress vps env
    let vps' := applyUpdates vps out.1
    let vps'' :=
      match out.2 with
      | some msg => { vps' with status := "failed", stage := StageFailed, errorMsg := msg }
      | none => { vps' with status := StatusRunning, qemuPid := env.pid }
    { m with instances := insertA id vps'' m.instances }

/-! ## Delete (`DeleteVPS`, `handleDeleteVPS`) -/

/-- Function `DeleteVPS`: unknown id errors; otherwise remove the first IP-index
entry pointing at this id, (best-effort) stop the bridge and kill the
process, remove the instance directory, and drop the record.  The metrics
cache is not touched. -/
def DeleteVPS (m : VPSManager) (id : String) : Except String VPSManager :=
  match lookupA id m.instances with
  | none => Except.error "VPS not found"
  | some _ =>
    Except.ok
      { m with
        ipInstances := removeFirstByValue id m.ipInstances
        instances := removeA id m.instances }

/-- Handler `handleDeleteVPS`: any `DeleteVPS` error is mapped to HTTP 500. -/
def handleDeleteVPS (m : VPSManager) (id : String) : Nat × VPSManager :=
  match DeleteVPS m id with
  | Except.error _ => (500, m)
  | Except.ok m' => (200, m')

/-! ## Start (`StartVPS`) -/

/-- Oracle for the external steps of `StartVPS`. -/
structure StartEnv where
  logOk : Bool
  spawnOk : Bool
  pidOk : Bool
  verifyOk : Bool
  pid : Int
deriving Repr, DecidableEq

/-- Outcome of `StartVPS`: the returned error (if any), the resulting
store state, and whether `cmd.Start()` was reached, i.e. whether a QEMU
respawn was attempted. -/
structure StartOutcome where
  err : Option String
  state : VPSManager
  spawned : Bool
deriving Repr, DecidableEq

/-- Update the status of the record stored under `id`. -/
def setStatusA (m : VPSManager) (id : String) (st : String) : VPSManager :=
  match lookupA id m.instances with
  | none => m
  | some vps => { m with instances := insertA id { vps with status := st } m.instances }

/-- Function `StartVPS`: the only status check is `vps.Status == StatusRunning`;
every other status falls through to the respawn. -/
def StartVPS (m : VPSManager) (id : String) (env : StartEnv) : StartOutcome :=
  match lookupA id m.instances with
  | none => ⟨some "VPS not found", m, false⟩
  | some vps =>
    if vps.status = StatusRunning then ⟨some "VPS is already running", m, false⟩
    else if env.logOk = false then ⟨some "failed to create log file", m, false⟩
    else if env.spawnOk = false then
      ⟨some "failed to start QEMU", setStatusA m id StatusStopped, true⟩
    else if env.pidOk = false then
      ⟨some "timeout waiting for QEMU to start", setStatusA m id StatusStopped, true⟩
    else if env.verifyOk = false then
      ⟨some "QEMU process verification failed after 3 retries",
        setStatusA m id StatusStopped, true⟩
    else
      ⟨none,
        { m with instances :=
            insertA id { vps with status := StatusRunning, qemuPid := env.pid } m.instances },
        true⟩

/-! ## Stop (`StopVPS`) and its shutdown watcher -/

/-- Function `StopVPS` up to the spawn of the watcher goroutine: requires an
existing record whose status is not `stopped` and a positive pid; `qmpOk`
records whether the `system_powerdown` delivery via echo/socat succeeds.
On success the published status is `stopping`. -/
def StopVPS (m : VPSManager) (id : String) (qmpOk : Bool) : Except String VPSManager :=
  match lookupA id m.instances with
  | none => Except.error "VPS not found"
  | some vps =>
    if vps.status = StatusStopped then Except.error "VPS is already stopped"
    else if vps.qemuPid ≤ 0 then Except.error "VPS does not have a valid PID"
    else if qmpOk = false then Except.error "failed to execute command"
    else Except.ok (setStatusA m id StatusStopping)

/-- Timeout `2 * time.Minute` in seconds. -/
def SHUTDOWN_TIMEOUT : Nat := 120

/-- Ticker period `5 * time.Second`, in seconds. -/
def SHUTDOWN_POLL : Nat := 5

/-- Number of ticker firings before the timeout channel becomes ready. -/
def numPolls : Nat := SHUTDOWN_TIMEOUT / SHUTDOWN_POLL

/-- The watcher loop of `StopVPS`.  `alive k` is the liveness observation
(`checkProcess` succeeding) at the `k`-th tick; `remaining` counts ticker
firings left before the 2-minute timeout; `timeoutWinsTie` resolves the
`select` race when the final tick and the timeout become ready together.
Returns the final published status and whether the pid was killed. -/
def stopWatcherGo (alive : Nat → Bool) (timeoutWinsTie : Bool) :
    Nat → Nat → String × Bool
  | _, 0 => (StatusStopped, true)
  | tick, r + 1 =>
    if r = 0 && timeoutWinsTie then (StatusStopped, true)
    else if alive tick = false then (StatusStopped, false)
    else stopWatcherGo alive timeoutWinsTie (tick + 1) r

/-- The watcher started by `StopVPS`. -/
def stopWatcher (alive : Nat → Bool) (timeoutWinsTie : Bool) : String × Bool :=
  stopWatcherGo alive timeoutWinsTie 1 numPolls

/-! ## Metrics (`updateMetricsCache`, `handleGetMetrics`) -/

/-- The rate-derivation block of `updateMetricsCache`: when a previous
baseline exists (`LastUpdate` not the zero time) and the elapsed interval
is positive, overwrite the four speed fields with
`(current − previous) / duration`; otherwise the sample is left as
collected. -/
def deriveRates (cache : MetricsCache) (metrics : ResourceMetricsQ) : ResourceMetricsQ :=
  match cache.lastUpdate with
  | some t0 =>
    let duration := metrics.time - t0
    if 0 < duration then
      { metrics with
        disk :=
          { metrics.disk with
            readSpeed := ((metrics.disk.readBytes - cache.lastDiskStats.readBytes : Int) : ℚ) / duration
            writeSpeed := ((metrics.disk.writeBytes - cache.lastDiskStats.writeBytes : Int) : ℚ) / duration }
        net :=
          { metrics.net with
            rxSpeed := ((metrics.net.rxBytes - cache.lastNetStats.rxBytes : Int) : ℚ) / duration
            txSpeed := ((metrics.net.txBytes - cache.lastNetStats.txBytes : Int) : ℚ) / duration } }
    else metrics
  | none => metrics

/-- Function `updateMetricsCache`: fetch or create the cache entry, derive rates,
publish the new baselines, append to the history and drop the oldest
sample when the window of 300 overflows. -/
def updateMetricsCache (mc : List (String × MetricsCache)) (id : String)
    (metrics : ResourceMetricsQ) : List (String × MetricsCache) :=
  let cache := (lookupA id mc).getD emptyMetricsCache
  let metrics' := deriveRates cache metrics
  let history := cache.metricsHistory ++ [metrics']
  let history' := if 300 < history.length then history.tail else history
  insertA id
    { cache with
      lastUpdate := some metrics'.time
      lastDiskStats := metrics'.disk
      lastNetStats := metrics'.net
      metricsHistory := history' } mc

/-- Handler `handleGetMetrics`: missing id is 400, an id with no cache entry is
404, otherwise the stored history is returned with 200.  The VM store is
never consulted. -/
def handleGetMetrics (m : VPSManager) (id : String) :
    Nat × Option (List ResourceMetricsQ) :=
  if id = "" then (400, none)
  else
    match lookupA id m.metricsCache with
    | none => (404, none)
    | some cache => (200, some cache.metricsHistory)

/-! ## Operation traces (for the whole-process port-allocation claims) -/

/-- The store-mutating operations of one process run.  `setStatus` stands
for all status-only mutations (stop/start/restart watchers,
`validateInstances`), which never touch the counters. -/
inductive Op where
  | create (newId name hostname imageType template : String) (now : Int)
  | delete (id : String)
  | setStatus (id : String) (st : String)
deriving Repr, DecidableEq

def applyOp (m : VPSManager) : Op → VPSManager
  | Op.create newId name hostname imageType template now =>
    (CreateVPS m newId name hostname imageType template now).2
  | Op.delete id =>
    match DeleteVPS m id with
    | Except.ok m' => m'
    | Except.error _ => m
  | Op.setStatus id st => setStatusA m id st

def runOps (m : VPSManager) : List Op → VPSManager
  | [] => m
  | op :: ops => runOps (applyOp m op) ops

/-- Count of create operations in a trace. -/
def numCreates : List Op → Nat
  | [] => 0
  | Op.create _ _ _ _ _ _ :: ops => numCreates ops + 1
  | _ :: ops => numCreates ops

/-- The (vnc, ssh) port pair handed to each successive creation in a
trace, including creations whose records are later removed. -/
def allocatedPorts (m : VPSManager) : List Op → List (Nat × Nat)
  | [] => []
  | op :: ops =>
    match op with
    | Op.create _ _ _ _ _ _ =>
      (m.nextVNCPort, m.nextSSHPort) :: allocatedPorts (applyOp m op) ops
    | _ => allocatedPorts (applyOp m op) ops

/-! ## Shared lemmas -/

theorem lookupA_removeA {α : Type} (k : String) (l : List (String × α)) :
    lookupA k (removeA k l) = none := by
  induction l with
  | nil => simp [removeA, lookupA]
  | cons hd tl ih =>
    obtain ⟨k', v⟩ := hd
    by_cases h : k' = k
    · simp [removeA, h, ih]
    · simp [removeA, lookupA, h, ih]

/-! ## C1 -/

/-- A state as it would look if the spec's client-address index were
populated: one unexpired VM owned by client `203.0.113.7`. -/
def c1Owner : VPS := mkVPS "vm-1" "n1" "n1.vps.local" "ubuntu-22.04" "blank" 5900 2200 0

def c1State : VPSManager :=
  { instances := [("vm-1", c1Owner)]
    ipInstances := [("203.0.113.7", "vm-1")]
    nextVNCPort := 5901
    nextSSHPort := 2201
    metricsCache := [] }

def c1Req : CreateRequest := ⟨"n2", "", "", ""⟩

/-- C1: the one-per-client rule is not enforced.  In a state where
`hasVPSForIP` reports that the client already owns a non-expired VM, a
second create request from that client is still answered 200, a second
record is stored, and both port counters advance: the handler never calls
`hasVPSForIP` (and nothing ever populates `ipInstances`). -/
theorem c1_create_ignores_owner :
    (hasVPSForIP c1State "203.0.113.7" 60).1 = true ∧
    (handleCreateVPS c1State c1Req "vm-2" 60).1 = 200 ∧
    (handleCreateVPS c1State c1Req "vm-2" 60).2.instances.length = 2 ∧
    (handleCreateVPS c1State c1Req "vm-2" 60).2.nextVNCPort = 5902 ∧
    (handleCreateVPS c1State c1Req "vm-2" 60).2.nextSSHPort = 2202 := by
  decide

/-! ## C2 -/

def c2Req : CreateRequest := ⟨"n1", "", "bogus-image", ""⟩

def allOkEnv : PipelineEnv :=
  { baseImageReady := true
    passwordOk := true
    mkdirOk := true
    diskOk := true
    isoToolOk := true
    qemuSpawnOk := true
    pidOk := true
    verifyOk := true
    websockifyOk := true
    pid := 4242 }

theorem createVPSWithProgress_badImage (vps : VPS) (env : PipelineEnv)
    (hb : SUPPORTED_IMAGES.contains vps.imageType = false) :
    createVPSWithProgress vps env =
      ([(StageInitializing, 10)], some ("unsupported image type: " ++ vps.imageType)) := by
  unfold createVPSWithProgress
  rw [hb]
  simp

theorem createVPSWithProgress_badHostname (vps : VPS) (env : PipelineEnv)
    (himg : SUPPORTED_IMAGES.contains vps.imageType = true)
    (hb : isValidHostname vps.hostname = false) :
    createVPSWithProgress vps env =
      ([(StageInitializing, 10)], some ("invalid hostname format: " ++ vps.hostname)) := by
  unfold createVPSWithProgress
  rw [himg, hb]
  simp

/-- C2 counterexample: a create request with an unsupported image id is
answered 200 (not 400/409), the record is stored and both ports are
consumed; the validation error only lands asynchronously on the record as
`status = failed`. -/
theorem c2_counterexample :
    (handleCreateVPS initManager c2Req "vm-1" 0).1 = 200 ∧
    ¬((handleCreateVPS initManager c2Req "vm-1" 0).1 = 400 ∨
      (handleCreateVPS initManager c2Req "vm-1" 0).1 = 409) ∧
    (lookupA "vm-1" (handleCreateVPS initManager c2Req "vm-1" 0).2.instances).isSome = true ∧
    (handleCreateVPS initManager c2Req "vm-1" 0).2.nextVNCPort = 5901 ∧
    (handleCreateVPS initManager c2Req "vm-1" 0).2.nextSSHPort = 2201 ∧
    ((lookupA "vm-1"
        (finishCreate (handleCreateVPS initManager c2Req "vm-1" 0).2 "vm-1" allOkEnv).instances).map
      VPS.status) = some "failed" ∧
    ((lookupA "vm-1"
        (finishCreate (handleCreateVPS initManager c2Req "vm-1" 0).2 "vm-1" allOkEnv).instances).map
      VPS.errorMsg) = some "unsupported image type: bogus-image" := by
  decide

/-- C2 (amended): for an unsupported image id or an invalid hostname the
HTTP create response is nevertheless 200 and state does change — the
record is stored with both port counters advanced — and the validation
error is only captured asynchronously on the record as `status = failed`
with the message set; an unknown template id is not a validation error at
all (the pipeline result does not depend on the template field). -/
theorem c2_validation_async (m : VPSManager) (req : CreateRequest) (newId : String)
    (now : Int) (env : PipelineEnv)
    (hbad : SUPPORTED_IMAGES.contains (applyCreateDefaults req).imageType = false ∨
      isValidHostname (applyCreateDefaults req).hostname = false) :
    (handleCreateVPS m req newId now).1 = 200 ∧
    (handleCreateVPS m req newId now).2.nextVNCPort = m.nextVNCPort + 1 ∧
    (handleCreateVPS m req newId now).2.nextSSHPort = m.nextSSHPort + 1 ∧
    ((lookupA newId
        (finishCreate (handleCreateVPS m req newId now).2 newId env).instances).map
      VPS.status) = some "failed" ∧
    (∀ vps : VPS, ∀ t : String,
      createVPSWithProgress { vps with template := t } env = createVPSWithProgress vps env) := by
  refine ⟨rfl, rfl, rfl, ?_, fun vps t => rfl⟩
  have hlook : lookupA newId (handleCreateVPS m req newId now).2.instances =
      some (mkVPS newId (applyCreateDefaults req).name (applyCreateDefaults req).hostname
        (applyCreateDefaults req).imageType (applyCreateDefaults req).template
        m.nextVNCPort m.nextSSHPort now) := by
    simp [handleCreateVPS, CreateVPS, lookupA, mkVPS]
  unfold finishCreate
  rw [hlook]
  obtain ⟨tr, msg, heq⟩ : ∃ tr msg,
      createVPSWithProgress (mkVPS newId (applyCreateDefaults req).name
        (applyCreateDefaults req).hostname (applyCreateDefaults req).imageType
        (applyCreateDefaults req).template m.nextVNCPort m.nextSSHPort now) env =
        (tr, some msg) := by
    rcases hbad with hb | hb
    · exact ⟨_, _, createVPSWithProgress_badImage _ env hb⟩
    · cases hc : SUPPORTED_IMAGES.contains (applyCreateDefaults req).imageType with
      | false => exact ⟨_, _, createVPSWithProgress_badImage _ env hc⟩
      | true => exact ⟨_, _, createVPSWithProgress_badHostname _ env hc hb⟩
  dsimp only
  rw [heq]
  simp [lookupA_insertA_self]

/-- Witness for the amended C2 at a concrete bad-hostname input. -/
theorem c2_validation_async_witness :
    (handleCreateVPS initManager ⟨"n1", "bad_host", "", ""⟩ "vm-9" 0).1 = 200 ∧
    ((lookupA "vm-9"
        (finishCreate (handleCreateVPS initManager ⟨"n1", "bad_host", "", ""⟩ "vm-9" 0).2
          "vm-9" allOkEnv).instances).map VPS.status) = some "failed" := by
  have h := c2_validation_async initManager ⟨"n1", "bad_host", "", ""⟩ "vm-9" 0 allOkEnv
    (Or.inr (by decide))
  exact ⟨h.1, h.2.2.2.1⟩

/-! ## C4 -/

def c4FailedVM : VPS :=
  { mkVPS "vm-f" "n" "h" "ubuntu-22.04" "blank" 5900 2200 0 with
    status := "failed", stage := StageFailed }

def c4State : VPSManager :=
  { instances := [("vm-f", c4FailedVM)]
    ipInstances := []
    nextVNCPort := 5901
    nextSSHPort := 2201
    metricsCache := [] }

def c4Env : StartEnv := ⟨true, true, true, true, 777⟩

/-- C4 counterexample: a VM whose status is `failed` (hence not
`stopped`) is started anyway — `StartVPS` reaches the QEMU respawn,
returns no error and publishes `status = running`. -/
theorem c4_counterexample :
    c4FailedVM.status ≠ StatusStopped ∧
    (StartVPS c4State "vm-f" c4Env).spawned = true ∧
    (StartVPS c4State "vm-f" c4Env).err = none ∧
    ((lookupA "vm-f" (StartVPS c4State "vm-f" c4Env).state.instances).map VPS.status) =
      some StatusRunning := by
  decide

/-- C4 (amended): the only status `StartVPS` rejects is `running`.  A
record with status `running` yields an error and no respawn attempt; any
record with any other status (stopped, creating, failed, stopping,
restarting) reaches the QEMU respawn whenever the log file can be
created. -/
theorem c4_start_gating (m : VPSManager) (id : String) (env : StartEnv) (vps : VPS)
    (h : lookupA id m.instances = some vps) :
    (vps.status = StatusRunning →
      (StartVPS m id env).err.isSome = true ∧ (StartVPS m id env).spawned = false) ∧
    (vps.status ≠ StatusRunning → env.logOk = true →
      (StartVPS m id env).spawned = true) := by
  unfold StartVPS
  rw [h]
  constructor
  · intro hr
    simp [hr]
  · intro hr hl
    rcases env with ⟨logOk, spawnOk, pidOk, verifyOk, pid⟩
    subst hl
    cases spawnOk <;> cases pidOk <;> cases verifyOk <;> simp [hr]

/-- Witness for the amended C4: a running VM is rejected without respawn,
and a stopped VM reaches the respawn. -/
theorem c4_start_gating_witness :
    ((StartVPS c1State "vm-1" c4Env).err.isSome = true ∧
      (StartVPS c1State "vm-1" c4Env).spawned = false) ∨
    (StartVPS c4State "vm-f" c4Env).spawned = true := by
  have h := c4_start_gating c4State "vm-f" c4Env c4FailedVM (by decide)
  exact Or.inr (h.2 (by decide) (by decide))

/-! ## C5 -/

def c5VM : VPS := mkVPS "v1" "n" "h" "ubuntu-22.04" "blank" 5900 2200 0

def c5State : VPSManager :=
  { instances := [("v1", c5VM)]
    ipInstances := []
    nextVNCPort := 5901
    nextSSHPort := 2201
    metricsCache := [] }

/-- C5 counterexample: after a successful delete the record is indeed
absent, but the second HTTP delete is answered 500, not 404 —
`handleDeleteVPS` maps every `DeleteVPS` error to
`http.StatusInternalServerError`. -/
theorem c5_counterexample :
    (handleDeleteVPS c5State "v1").1 = 200 ∧
    lookupA "v1" (handleDeleteVPS c5State "v1").2.instances = none ∧
    (handleDeleteVPS (handleDeleteVPS c5State "v1").2 "v1").1 = 500 ∧
    (handleDeleteVPS (handleDeleteVPS c5State "v1").2 "v1").1 ≠ 404 := by
  decide

/-- C5 (amended): delete is idempotent in effect — after a successful
delete the record is absent and a second delete leaves the state
unchanged — but the second HTTP delete responds 500 (with "VPS not
found"), not 404. -/
theorem c5_delete_idempotent (m m' : VPSManager) (id : String)
    (h : DeleteVPS m id = Except.ok m') :
    lookupA id m'.instances = none ∧
    handleDeleteVPS m' id = (500, m') := by
  cases hl : lookupA id m.instances with
  | none => simp [DeleteVPS, hl] at h
  | some vps =>
    simp only [DeleteVPS, hl, Except.ok.injEq] at h
    subst h
    have habs : lookupA id (removeA id m.instances) = none := lookupA_removeA id m.instances
    refine ⟨habs, ?_⟩
    simp [handleDeleteVPS, DeleteVPS, habs]

/-- Witness for the amended C5 at a concrete one-VM state. -/
theorem c5_delete_idempotent_witness :
    lookupA "v1" (handleDeleteVPS c5State "v1").2.instances = none ∧
    handleDeleteVPS (handleDeleteVPS c5State "v1").2 "v1" =
      (500, (handleDeleteVPS c5State "v1").2) := by
  have h := c5_delete_idempotent c5State (handleDeleteVPS c5State "v1").2 "v1" rfl
  exact h

/-! ## C3 -/

theorem allocatedPorts_eq (ops : List Op) : ∀ m : VPSManager,
    allocatedPorts m ops =
      (List.range (numCreates ops)).map (fun i => (m.nextVNCPort + i, m.nextSSHPort + i)) := by
  induction ops with
  | nil => intro m; simp [allocatedPorts, numCreates]
  | cons op ops ih =>
    intro m
    cases op with
    | create a b c d e f =>
      show (m.nextVNCPort, m.nextSSHPort) ::
          allocatedPorts (applyOp m (Op.create a b c d e f)) ops = _
      rw [ih]
      have hv : (applyOp m (Op.create a b c d e f)).nextVNCPort = m.nextVNCPort + 1 := rfl
      have hs : (applyOp m (Op.create a b c d e f)).nextSSHPort = m.nextSSHPort + 1 := rfl
      rw [hv, hs]
      show _ = (List.range (numCreates ops + 1)).map _
      rw [List.range_succ_eq_map]
      simp only [List.map_cons, Nat.add_zero, List.map_map]
      congr 1
      apply List.map_congr_left
      intro i _
      simp only [Function.comp_apply, Prod.mk.injEq]
      omega
    | delete id =>
      show allocatedPorts (applyOp m (Op.delete id)) ops = _
      rw [ih]
      have hv : (applyOp m (Op.delete id)).nextVNCPort = m.nextVNCPort := by
        simp only [applyOp, DeleteVPS]
        cases lookupA id m.instances <;> rfl
      have hs : (applyOp m (Op.delete id)).nextSSHPort = m.nextSSHPort := by
        simp only [applyOp, DeleteVPS]
        cases lookupA id m.instances <;> rfl
      rw [hv, hs]
      rfl
    | setStatus id st =>
      show allocatedPorts (applyOp m (Op.setStatus id st)) ops = _
      rw [ih]
      have hv : (applyOp m (Op.setStatus id st)).nextVNCPort = m.nextVNCPort := by
        simp only [applyOp, setStatusA]
        cases lookupA id m.instances <;> rfl
      have hs : (applyOp m (Op.setStatus id st)).nextSSHPort = m.nextSSHPort := by
        simp only [applyOp, setStatusA]
        cases lookupA id m.instances <;> rfl
      rw [hv, hs]
      rfl

/-- C3: over any sequence of operations of one process started at
`NewVPSManager`'s state, the `k`-th successful creation is handed exactly
the ports `(5900 + k, 2200 + k)` — so the allocation sequence is seeded at
`vnc = 5900`, `ssh = 2200`, both coordinates strictly increase from each
allocation to every later one (hence all pairs of records ever allocated
have distinct vnc ports and distinct ssh ports), and since deletions never
touch the counters, ports of removed records are never reused. -/
theorem c3_port_allocation (ops : List Op) :
    allocatedPorts initManager ops =
      (List.range (numCreates ops)).map (fun i => (5900 + i, 2200 + i)) ∧
    List.Pairwise (fun p q : Nat × Nat => p.1 < q.1 ∧ p.2 < q.2)
      (allocatedPorts initManager ops) := by
  have h := allocatedPorts_eq ops initManager
  have h59 : initManager.nextVNCPort = 5900 := rfl
  have h22 : initManager.nextSSHPort = 2200 := rfl
  rw [h59, h22] at h
  refine ⟨h, ?_⟩
  rw [h]
  refine List.Pairwise.map _ ?_ (List.pairwise_lt_range _)
  intro a b hab
  exact ⟨by omega, by omega⟩

/-! ## C6 -/

theorem createVPSWithProgress_trace_cases (vps : VPS) (env : PipelineEnv) :
    (createVPSWithProgress vps env).1.map Prod.snd = [10] ∨
    (createVPSWithProgress vps env).1.map Prod.snd = [10, 20] ∨
    (createVPSWithProgress vps env).1.map Prod.snd = [10, 20, 40] ∨
    (createVPSWithProgress vps env).1.map Prod.snd = [10, 20, 40, 60] ∨
    (createVPSWithProgress vps env).1.map Prod.snd = [10, 20, 40, 60, 80] ∨
    (createVPSWithProgress vps env).1.map Prod.snd = [10, 20, 40, 60, 80, 90, 100] := by
  unfold createVPSWithProgress
  repeat' split
  all_goals first
    | exact Or.inl rfl
    | exact Or.inr (Or.inl rfl)
    | exact Or.inr (Or.inr (Or.inl rfl))
    | exact Or.inr (Or.inr (Or.inr (Or.inl rfl)))
    | exact Or.inr (Or.inr (Or.inr (Or.inr (Or.inl rfl))))
    | exact Or.inr (Or.inr (Or.inr (Or.inr (Or.inr rfl))))

/-- C6: a fresh record starts at `progress = 0`, and for every possible
outcome of the external steps the pipeline performs a sequence of progress
updates that is an initial part of `10, 20, 40, 60, 80, 90, 100` — in
particular the published progress is non-decreasing from the initial `0`
until the terminal (completed or failed) state. -/
theorem c6_progress_monotone (vps : VPS) (env : PipelineEnv) (m : VPSManager)
    (newId name hostname imageType template : String) (now : Int) :
    (CreateVPS m newId name hostname imageType template now).1.progress = 0 ∧
    (∃ n, ((createVPSWithProgress vps env).1.map Prod.snd) =
        List.take n [10, 20, 40, 60, 80, 90, 100]) ∧
    List.Chain' (· ≤ ·) (0 :: (createVPSWithProgress vps env).1.map Prod.snd) := by
  refine ⟨rfl, ?_⟩
  rcases createVPSWithProgress_trace_cases vps env with h | h | h | h | h | h <;>
    rw [h] <;>
    first
      | exact ⟨⟨1, by decide⟩, by simp⟩
      | exact ⟨⟨2, by decide⟩, by simp⟩
      | exact ⟨⟨3, by decide⟩, by simp⟩
      | exact ⟨⟨4, by decide⟩, by simp⟩
      | exact ⟨⟨5, by decide⟩, by simp⟩
      | exact ⟨⟨7, by decide⟩, by simp⟩

/-! ## C7 -/

theorem stopWatcherGo_fst (alive : Nat → Bool) (tie : Bool) :
    ∀ r tick, (stopWatcherGo alive tie tick r).1 = StatusStopped := by
  intro r
  induction r with
  | zero => intro tick; rfl
  | succ n ih =>
    intro tick
    simp only [stopWatcherGo]
    split
    · rfl
    · split
      · rfl
      · exact ih (tick + 1)

theorem stopWatcherGo_killed (alive : Nat → Bool) (tie : Bool) :
    ∀ r tick, (∀ k, tick ≤ k → k < tick + r → alive k = true) →
      (stopWatcherGo alive tie tick r).2 = true := by
  intro r
  induction r with
  | zero => intro tick _; rfl
  | succ n ih =>
    intro tick h
    simp only [stopWatcherGo]
    split
    · rfl
    · have ha : alive tick = true := h tick le_rfl (by omega)
      rw [if_neg (by simp [ha])]
      exact ih (tick + 1) (fun k hk1 hk2 => h k (by omega) (by omega))

/-- C7: a successful stop request on a running VM (positive pid, QMP
delivery succeeding) publishes `status = stopping`; the watcher — one
liveness poll per 5-second tick, a 2-minute timeout, however the final
`select` race resolves — always terminates with the status published as
`stopped`, and when the process is still alive at every poll it sends the
kill. -/
theorem c7_stop_watcher (m : VPSManager) (id : String) (vps : VPS)
    (alive : Nat → Bool) (tie : Bool)
    (h : lookupA id m.instances = some vps)
    (hrun : vps.status = StatusRunning) (hpid : 0 < vps.qemuPid) :
    (∃ m', StopVPS m id true = Except.ok m' ∧
      (lookupA id m'.instances).map VPS.status = some StatusStopping) ∧
    (stopWatcher alive tie).1 = StatusStopped ∧
    ((∀ k, 1 ≤ k → k ≤ numPolls → alive k = true) →
      (stopWatcher alive tie).2 = true) := by
  refine ⟨?_, stopWatcherGo_fst alive tie numPolls 1, ?_⟩
  · refine ⟨setStatusA m id StatusStopping, ?_, ?_⟩
    · unfold StopVPS
      rw [h]
      dsimp only
      rw [if_neg (by rw [hrun]; decide), if_neg (by omega), if_neg (by decide)]
    · unfold setStatusA
      rw [h]
      simp [lookupA_insertA_self]
  · intro hall
    exact stopWatcherGo_killed alive tie numPolls 1
      (fun k hk1 hk2 => hall k hk1 (by omega))

/-- A running VM with a live pid, for the C7 witness. -/
def c7VM : VPS := { c5VM with status := StatusRunning, qemuPid := 321 }

def c7State : VPSManager :=
  { instances := [("v1", c7VM)]
    ipInstances := []
    nextVNCPort := 5901
    nextSSHPort := 2201
    metricsCache := [] }

/-- Witness for C7 at a concrete running VM and an always-alive process. -/
theorem c7_stop_watcher_witness :
    (∃ m', StopVPS c7State "v1" true = Except.ok m' ∧
      (lookupA "v1" m'.instances).map VPS.status = some StatusStopping) ∧
    ((stopWatcher (fun _ => true) false).1 = StatusStopped ∧
      (stopWatcher (fun _ => true) false).2 = true) := by
  have h := c7_stop_watcher c7State "v1" c7VM (fun _ => true) false (by decide) rfl
    (by decide)
  exact ⟨h.1, h.2.1, h.2.2 (fun k _ _ => rfl)⟩

/-! ## C8 -/

theorem isLabelChar_of_isAlnum {c : Char} (h : isAlnum c = true) : isLabelChar c = true := by
  simp [isLabelChar, h]

theorem splitLabels_ne_nil (s : List Char) : splitLabels s ≠ [] := by
  cases s with
  | nil => simp [splitLabels]
  | cons a rest =>
    by_cases h : a = '.'
    · simp [splitLabels, h]
    · simp only [splitLabels, if_neg h]
      cases splitLabels rest <;> simp

theorem splitLabels_cons_dot (rest : List Char) :
    splitLabels ('.' :: rest) = [] :: splitLabels rest := by
  simp [splitLabels]

theorem splitLabels_cons_ne (a : Char) (rest : List Char) (h : a ≠ '.')
    (l : List Char) (ls : List (List Char)) (h' : splitLabels rest = l :: ls) :
    splitLabels (a :: rest) = (a :: l) :: ls := by
  simp [splitLabels, h, h']

/-- Every non-dot character of the hostname occurs in one of its labels. -/
theorem mem_splitLabels (s : List Char) (c : Char) (hc : c ∈ s) (hne : c ≠ '.') :
    ∃ part ∈ splitLabels s, c ∈ part := by
  induction s with
  | nil => cases hc
  | cons a rest ih =>
    rcases List.mem_cons.mp hc with rfl | hmem
    · cases hsp : splitLabels rest with
      | nil => exact absurd hsp (splitLabels_ne_nil rest)
      | cons l ls =>
        exact ⟨c :: l, by rw [splitLabels_cons_ne c rest hne l ls hsp]; simp,
          List.mem_cons_self c l⟩
    · obtain ⟨p, hp, hcp⟩ := ih hmem
      by_cases hdot : a = '.'
      · subst hdot
        exact ⟨p, by rw [splitLabels_cons_dot]; exact List.mem_cons_of_mem _ hp, hcp⟩
      · cases hsp : splitLabels rest with
        | nil => exact absurd hsp (splitLabels_ne_nil rest)
        | cons l ls =>
          rw [hsp] at hp
          rcases List.mem_cons.mp hp with rfl | hp'
          · exact ⟨a :: p, by rw [splitLabels_cons_ne a rest hdot p ls hsp]; simp,
              List.mem_cons_of_mem _ hcp⟩
          · exact ⟨p, by
              rw [splitLabels_cons_ne a rest hdot l ls hsp]
              exact List.mem_cons_of_mem _ hp', hcp⟩

/-- A label containing a character outside `[a-zA-Z0-9-]` fails the label
regex. -/
theorem labelMatch_false_of_bad (part : List Char) (c : Char) (hc : c ∈ part)
    (hbad : isLabelChar c = false) : labelMatch part = false := by
  have halnum : isAlnum c = false := by
    cases h : isAlnum c
    · rfl
    · rw [isLabelChar_of_isAlnum h] at hbad; cases hbad
  cases part with
  | nil => rfl
  | cons a cs =>
    rcases List.mem_cons.mp hc with rfl | hmem
    · cases cs with
      | nil => exact halnum
      | cons d ds => simp [labelMatch, halnum]
    · have hcs : cs ≠ [] := List.ne_nil_of_mem hmem
      cases cs with
      | nil => exact absurd rfl hcs
      | cons d ds =>
        have hdecomp := List.dropLast_append_getLast hcs
        have hmem' : c ∈ (d :: ds).dropLast ++ [(d :: ds).getLast hcs] := by
          rw [hdecomp]; exact hmem
        rcases List.mem_append.mp hmem' with hdl | hlast
        · have hall : (d :: ds).dropLast.all isLabelChar = false :=
            List.all_eq_false.mpr ⟨c, hdl, by simp [hbad]⟩
          simp only [labelMatch]
          rw [hall]
          simp
        · have hceq : c = (d :: ds).getLast hcs := List.mem_singleton.mp hlast
          have hlastD : (d :: ds).getLastD a = (d :: ds).getLast hcs := by
            rw [List.getLastD_eq_getLast?, List.getLast?_eq_getLast _ hcs]
            rfl
          have hla : isAlnum ((d :: ds).getLastD a) = false := by
            rw [hlastD, ← hceq]; exact halnum
          simp only [labelMatch]
          rw [hla]
          simp

/-- C8: the hostname validator agrees with the spec's wording (length
≤ 253, labels ≤ 63 each matching `[A-Za-z0-9]([A-Za-z0-9-]*[A-Za-z0-9])?`);
it accepts `a`, `a.b`, `a-b.c1`; it rejects the empty string, `-a`, `a-`,
any hostname with a label longer than 63 characters, any hostname longer
than 253 characters, and any hostname containing `_` or `/`. -/
theorem c8_hostname_validator :
    (∀ s : String, isValidHostname s = hostnameSpecValid s) ∧
    isValidHostname "a" = true ∧
    isValidHostname "a.b" = true ∧
    isValidHostname "a-b.c1" = true ∧
    isValidHostname "" = false ∧
    isValidHostname "-a" = false ∧
    isValidHostname "a-" = false ∧
    (∀ s : String, ∀ part ∈ splitLabels s.data, 63 < part.length →
      isValidHostname s = false) ∧
    (∀ s : String, 253 < s.data.length → isValidHostname s = false) ∧
    (∀ s : String, '_' ∈ s.data → isValidHostname s = false) ∧
    (∀ s : String, '/' ∈ s.data → isValidHostname s = false) := by
  have hbadchar : ∀ (c : Char), isLabelChar c = false → c ≠ '.' →
      ∀ s : String, c ∈ s.data → isValidHostname s = false := by
    intro c hbad hne s hc
    unfold isValidHostname
    by_cases hlen : 253 < s.data.length
    · rw [if_pos hlen]
    · rw [if_neg hlen]
      obtain ⟨part, hpart, hcp⟩ := mem_splitLabels s.data c hc hne
      exact List.all_eq_false.mpr ⟨part, hpart,
        by simp [labelMatch_false_of_bad part c hcp hbad]⟩
  refine ⟨?_, by decide, by decide, by decide, by decide, by decide, by decide,
    ?_, ?_, ?_, ?_⟩
  · intro s
    unfold isValidHostname hostnameSpecValid
    by_cases hlen : 253 < s.data.length
    · rw [if_pos hlen, decide_eq_false (Nat.not_le.mpr hlen), Bool.false_and]
    · rw [if_neg hlen, decide_eq_true (Nat.not_lt.mp hlen), Bool.true_and]
  · intro s part hpart hlen
    unfold isValidHostname
    by_cases h253 : 253 < s.data.length
    · rw [if_pos h253]
    · rw [if_neg h253]
      exact List.all_eq_false.mpr ⟨part, hpart, by simp [Nat.not_le.mpr hlen]⟩
  · intro s hlen
    unfold isValidHostname
    rw [if_pos hlen]
  · exact hbadchar '_' (by decide) (by decide)
  · exact hbadchar '/' (by decide) (by decide)

set_option maxRecDepth 8000 in
/-- Witness for C8: the hypothesis-bearing components applied at concrete
inputs — a 254-character hostname, a 64-character label, an underscore and
a slash are each rejected. -/
theorem c8_hostname_validator_witness :
    isValidHostname (String.mk (List.replicate 254 'a')) = false ∧
    isValidHostname (String.mk (List.replicate 64 'b' ++ ['.', 'c'])) = false ∧
    isValidHostname "a_b" = false ∧
    isValidHostname "a/b" = false := by
  have h := c8_hostname_validator
  refine ⟨h.2.2.2.2.2.2.2.2.1 _ (by decide), ?_, ?_, ?_⟩
  · exact h.2.2.2.2.2.2.2.1 (String.mk (List.replicate 64 'b' ++ ['.', 'c']))
      (List.replicate 64 'b') (by decide) (by decide)
  · exact h.2.2.2.2.2.2.2.2.2.1 "a_b" (by decide)
  · exact h.2.2.2.2.2.2.2.2.2.2 "a/b" (by decide)

/-! ## C9 -/

theorem deriveRates_some_pos (cache : MetricsCache) (metrics : ResourceMetricsQ)
    (t0 : ℚ) (h0 : cache.lastUpdate = some t0) (hpos : t0 < metrics.time) :
    deriveRates cache metrics =
      { metrics with
        disk :=
          { metrics.disk with
            readSpeed := ((metrics.disk.readBytes - cache.lastDiskStats.readBytes : Int) : ℚ) /
              (metrics.time - t0)
            writeSpeed := ((metrics.disk.writeBytes - cache.lastDiskStats.writeBytes : Int) : ℚ) /
              (metrics.time - t0) }
        net :=
          { metrics.net with
            rxSpeed := ((metrics.net.rxBytes - cache.lastNetStats.rxBytes : Int) : ℚ) /
              (metrics.time - t0)
            txSpeed := ((metrics.net.txBytes - cache.lastNetStats.txBytes : Int) : ℚ) /
              (metrics.time - t0) } } := by
  unfold deriveRates
  rw [h0]
  dsimp only
  rw [if_pos (sub_pos.mpr hpos)]

theorem deriveRates_some_nonpos (cache : MetricsCache) (metrics : ResourceMetricsQ)
    (t0 : ℚ) (h0 : cache.lastUpdate = some t0) (hnp : metrics.time ≤ t0) :
    deriveRates cache metrics = metrics := by
  unfold deriveRates
  rw [h0]
  dsimp only
  rw [if_neg (by rw [sub_pos]; exact not_lt.mpr hnp)]

theorem getLast?_append_singleton {α : Type} (l : List α) (a : α) :
    (l ++ [a]).getLast? = some a := by
  induction l with
  | nil => rfl
  | cons x xs ih =>
    rw [List.cons_append]
    cases hx : xs ++ [a] with
    | nil => exact absurd hx (by simp)
    | cons y ys =>
      rw [List.getLast?_cons_cons, ← hx]
      exact ih

/-- The history kept by `updateMetricsCache` always ends in the sample
just appended, whether or not the oldest sample was dropped. -/
theorem histTrim_getLast {α : Type} (l : List α) (a : α) :
    (if 300 < (l ++ [a]).length then (l ++ [a]).tail else l ++ [a]).getLast? = some a := by
  by_cases hfull : 300 < (l ++ [a]).length
  · rw [if_pos hfull]
    cases l with
    | nil => simp at hfull
    | cons x xs => exact getLast?_append_singleton xs a
  · rw [if_neg hfull]
    exact getLast?_append_singleton l a

theorem histTrim_len {α : Type} (l : List α) (a : α) (hlen : l.length ≤ 300) :
    (if 300 < (l ++ [a]).length then (l ++ [a]).tail else l ++ [a]).length ≤ 300 := by
  by_cases hfull : 300 < (l ++ [a]).length
  · rw [if_pos hfull]
    simp only [List.length_tail, List.length_append, List.length_singleton]
    omega
  · rw [if_neg hfull]
    simp only [List.length_append, List.length_singleton] at hfull ⊢
    omega

theorem histTrim_drop_oldest {α : Type} (l : List α) (a : α) (h300 : l.length = 300) :
    (if 300 < (l ++ [a]).length then (l ++ [a]).tail else l ++ [a]) = l.tail ++ [a] := by
  have hfull : 300 < (l ++ [a]).length := by
    simp only [List.length_append, List.length_singleton]
    omega
  rw [if_pos hfull]
  cases l with
  | nil => simp at h300
  | cons x xs => rfl

/-- C9: on appending a sample when a baseline exists, `updateMetricsCache`
stores the sample with each disk and network rate equal to
`(current counter − previous counter) / elapsed seconds` when the elapsed
interval is positive, and with the rates left at their collected zeros
when it is not; after every append the per-VM history has length ≤ 300,
and when the history was full the oldest sample is dropped. -/
theorem c9_metrics_rates (mc : List (String × MetricsCache)) (id : String)
    (metrics : ResourceMetricsQ) (cache : MetricsCache)
    (hc : lookupA id mc = some cache) (hlen : cache.metricsHistory.length ≤ 300) :
    ∃ c', lookupA id (updateMetricsCache mc id metrics) = some c' ∧
      c'.metricsHistory.length ≤ 300 ∧
      (cache.metricsHistory.length = 300 →
        c'.metricsHistory = cache.metricsHistory.tail ++ [deriveRates cache metrics]) ∧
      (∀ t0 : ℚ, cache.lastUpdate = some t0 → t0 < metrics.time →
        ∃ s, c'.metricsHistory.getLast? = some s ∧
          s.disk.readSpeed =
            ((metrics.disk.readBytes - cache.lastDiskStats.readBytes : Int) : ℚ) /
              (metrics.time - t0) ∧
          s.disk.writeSpeed =
            ((metrics.disk.writeBytes - cache.lastDiskStats.writeBytes : Int) : ℚ) /
              (metrics.time - t0) ∧
          s.net.rxSpeed =
            ((metrics.net.rxBytes - cache.lastNetStats.rxBytes : Int) : ℚ) /
              (metrics.time - t0) ∧
          s.net.txSpeed =
            ((metrics.net.txBytes - cache.lastNetStats.txBytes : Int) : ℚ) /
              (metrics.time - t0)) ∧
      (∀ t0 : ℚ, cache.lastUpdate = some t0 → metrics.time ≤ t0 →
        metrics.disk.readSpeed = 0 → metrics.disk.writeSpeed = 0 →
        metrics.net.rxSpeed = 0 → metrics.net.txSpeed = 0 →
        ∃ s, c'.metricsHistory.getLast? = some s ∧
          s.disk.readSpeed = 0 ∧ s.disk.writeSpeed = 0 ∧
          s.net.rxSpeed = 0 ∧ s.net.txSpeed = 0) := by
  simp only [updateMetricsCache, hc, Option.getD]
  refine ⟨_, lookupA_insertA_self _ _ _, histTrim_len _ _ hlen,
    fun h300 => histTrim_drop_oldest _ _ h300, ?_, ?_⟩
  · intro t0 h0 hpos
    have hd := deriveRates_some_pos cache metrics t0 h0 hpos
    exact ⟨_, histTrim_getLast _ _, by rw [hd], by rw [hd], by rw [hd], by rw [hd]⟩
  · intro t0 h0 hnp hr hw hrx htx
    have hd := deriveRates_some_nonpos cache metrics t0 h0 hnp
    exact ⟨_, histTrim_getLast _ _, by rw [hd]; exact hr, by rw [hd]; exact hw,
      by rw [hd]; exact hrx, by rw [hd]; exact htx⟩

/-- A concrete one-entry metrics cache for the C9 witness: baseline at
time 10 with zero counters, fresh sample at time 12 with 1000 read bytes
and 500 rx bytes. -/
def c9Cache : MetricsCache :=
  { lastUpdate := some 10
    lastDiskStats := zeroDisk
    lastNetStats := zeroNet
    metricsHistory := [] }

def c9Sample : ResourceMetricsQ :=
  { cpuUsage := 0
    memUsed := 0
    memTotal := 0
    memCache := 0
    disk := { readBytes := 1000, writeBytes := 400, readOps := 0, writeOps := 0,
              readSpeed := 0, writeSpeed := 0 }
    net := { rxBytes := 500, txBytes := 300, rxPackets := 0, txPackets := 0,
             rxSpeed := 0, txSpeed := 0 }
    time := 12 }

/-- Witness for C9: at the concrete cache and sample the appended sample
carries the rates `1000/2 = 500`, `400/2 = 200`, `500/2 = 250`,
`300/2 = 150`. -/
theorem c9_metrics_rates_witness :
    ∃ c', lookupA "v1" (updateMetricsCache [("v1", c9Cache)] "v1" c9Sample) = some c' ∧
      ∃ s, c'.metricsHistory.getLast? = some s ∧
        s.disk.readSpeed = 500 ∧ s.disk.writeSpeed = 200 ∧
        s.net.rxSpeed = 250 ∧ s.net.txSpeed = 150 := by
  obtain ⟨c', hc', _, _, hpos, _⟩ :=
    c9_metrics_rates [("v1", c9Cache)] "v1" c9Sample c9Cache (by decide) (by decide)
  obtain ⟨s, hs, h1, h2, h3, h4⟩ := hpos 10 rfl (by norm_num [c9Sample])
  refine ⟨c', hc', s, hs, ?_, ?_, ?_, ?_⟩
  · rw [h1]; norm_num [c9Sample, c9Cache, zeroDisk]
  · rw [h2]; norm_num [c9Sample, c9Cache, zeroDisk]
  · rw [h3]; norm_num [c9Sample, c9Cache, zeroNet]
  · rw [h4]; norm_num [c9Sample, c9Cache, zeroNet]

/-! ## C10 -/

/-- C10: a successful delete leaves the metrics cache untouched, and a
subsequent metrics query for the deleted id still answers 200 with the
stored history rather than 404. -/
theorem c10_delete_keeps_metrics (m : VPSManager) (id : String) (cache : MetricsCache)
    (hid : id ≠ "") (hc : lookupA id m.metricsCache = some cache)
    (m' : VPSManager) (hdel : DeleteVPS m id = Except.ok m') :
    m'.metricsCache = m.metricsCache ∧
    handleGetMetrics m' id = (200, some cache.metricsHistory) := by
  cases hl : lookupA id m.instances with
  | none => simp [DeleteVPS, hl] at hdel
  | some vps =>
    simp only [DeleteVPS, hl, Except.ok.injEq] at hdel
    subst hdel
    refine ⟨rfl, ?_⟩
    simp [handleGetMetrics, hid, hc]

/-- Witness for C10 at a one-VM state carrying one cached sample. -/
theorem c10_delete_keeps_metrics_witness :
    (DeleteVPS
        { instances := [("v1", c5VM)]
          ipInstances := []
          nextVNCPort := 5901
          nextSSHPort := 2201
          metricsCache := [("v1", c9Cache)] } "v1").map
      (fun m' => handleGetMetrics m' "v1") =
      Except.ok (200, some c9Cache.metricsHistory) := by
  have h := c10_delete_keeps_metrics
    { instances := [("v1", c5VM)]
      ipInstances := []
      nextVNCPort := 5901
      nextSSHPort := 2201
      metricsCache := [("v1", c9Cache)] } "v1" c9Cache (by decide) (by decide)
    { instances := []
      ipInstances := []
      nextVNCPort := 5901
      nextSSHPort := 2201
      metricsCache := [("v1", c9Cache)] } rfl
  rw [show (DeleteVPS
      { instances := [("v1", c5VM)]
        ipInstances := []
        nextVNCPort := 5901
        nextSSHPort := 2201
        metricsCache := [("v1", c9Cache)] } "v1") = Except.ok
      { instances := []
        ipInstances := []
        nextVNCPort := 5901
        nextSSHPort := 2201
        metricsCache := [("v1", c9Cache)] } from rfl]
  rw [Except.map, h.2]

end BlstLite
